import Mathlib

/-!
Verification development for the pi-timelapse recorder.

The definitions below are shallow embeddings of the C++ sources:
`src/server.cpp` (HTTP control plane), `src/timelapse/timelapse.cpp`
(capture pipeline, frame sink, assembler).  Stateful handlers become
pure functions from their observable inputs (latch values, filesystem
observations, parameters) to their observable effects (response bodies
set, latch stores, spawned tasks, files written, signals sent).
-/

/-! ## Control plane: `/create-timelapse` handler (src/server.cpp lines 113-164)

The handler reads two latches (`isCamRunning`, `isCreatingTimelapse`),
observes the filesystem (`is_empty(FRAME_PATH)`,
`exists(TIMELAPSE_PATH) && is_directory(TIMELAPSE_PATH)`), and then —
with no early return after either error body — stores the latch and
spawns the assembler thread.  `bodies` records every `set_content`
call in order; httplib keeps only the last one as the response. -/

structure RouteEffect where
  bodies  : List String
  latchStored : Bool   -- final value of isCreatingTimelapse after the handler body
  spawned : Bool       -- whether the assembler thread was constructed
  deriving DecidableEq, Repr

def noFramesBody : String :=
  "Error: cannot create timelapse, there are no frames in frame directory.\n"

def noVideoDirBody : String :=
  "Error: cannot create timelapse, the timelapse path does not point to an existing directory.\n"

def createTimelapseRoute (camRunning creating : Bool)
    (frameDirEmpty tlExists tlIsDir : Bool) : RouteEffect :=
  if camRunning then
    { bodies := ["Error: cannot create timelapse, camera is currently running.\n"]
      latchStored := creating, spawned := false }
  else if creating then
    { bodies := ["Error: cannot create timelapse, timelapse is already being created.\n"]
      latchStored := creating, spawned := false }
  else
    let b1 := if frameDirEmpty then [noFramesBody] else []
    let b2 := if tlExists && tlIsDir then [noVideoDirBody] else []
    { bodies := b1 ++ b2 ++
        ["Creating timelapse... this may take awhile\n",
         "Timelapse has been created\n"]
      latchStored := true
      spawned := true }

/-! ## Control plane: shutdown (src/server.cpp lines 21-27 and 205-226)

`shutdownServer` stores `shouldStop := true` and stops the httplib
server; it touches no other latch.  After `listen` returns, `main`
joins `camThread` (only) and exits.  `ServerState` carries the two
cancellation latches, whether the server accepts requests, and which
background threads are still running. -/

structure ServerState where
  shouldStop       : Bool  -- capture stop latch (spec: stopRequested)
  shouldCreateStop : Bool  -- assembly cancel latch (spec: cancelRequested)
  accepting        : Bool  -- httplib server accepting requests
  camRunning       : Bool  -- capture background thread alive
  creatingRunning  : Bool  -- assembler background thread alive
  deriving DecidableEq, Repr

def shutdownServer (s : ServerState) : ServerState :=
  { s with shouldStop := true, accepting := false }

-- main's epilogue after svr.listen returns: join camThread if joinable.
def mainEpilogue (s : ServerState) : ServerState :=
  { s with camRunning := false }

def shutdownSequence (s : ServerState) : ServerState :=
  mainEpilogue (shutdownServer s)

/-! ## HTTP parameter coercion (src/server.cpp lines 71-79 and 135-147)

Each handler reads a query parameter with
`if (req.has_param(k)) v = std::stoi(req.get_param_value(k));`
starting from a per-parameter initial value: 0 for `length`,
`cap-interval`, `fps` and `preset`, but -1 for `crf`
(src/server.cpp line 137).  `stoiModel` embeds `std::stoi` with
base 10: skip leading C whitespace (`isspace`: space, \t, \n, \v, \f,
\r), take an optional sign, then a maximal digit run; an empty digit
run raises `std::invalid_argument` and a value outside the `int` range
raises `std::out_of_range` — both modelled as `none` (the handler body
is aborted by the exception). -/

def isCSpace (c : Char) : Bool :=
  c = ' ' || c = '\t' || c = '\n' || c = '\x0b' || c = '\x0c' || c = '\r'

def stripSign (cs : List Char) : Int × List Char :=
  match cs with
  | '-' :: t => (-1, t)
  | '+' :: t => (1, t)
  | _ => (1, cs)

def natOfDigits (ds : List Char) : Nat :=
  ds.foldl (fun acc c => 10 * acc + (c.toNat - 48)) 0

def intPrefixDigits (s : String) : List Char :=
  ((stripSign (s.data.dropWhile isCSpace)).2).takeWhile Char.isDigit

def stoiModel (s : String) : Option Int :=
  let cs := s.data.dropWhile isCSpace
  let sign := (stripSign cs).1
  let ds := (stripSign cs).2.takeWhile Char.isDigit
  if ds.isEmpty then none
  else
    let v : Int := sign * (natOfDigits ds : Int)
    if v < -2147483648 ∨ 2147483647 < v then none else some v

inductive CtrlParam
  | length
  | capInterval
  | fps
  | preset
  | crf
  deriving DecidableEq, Repr

-- the handler's initial value for each parameter variable
def paramInit : CtrlParam → Int
  | CtrlParam.length => 0
  | CtrlParam.capInterval => 0
  | CtrlParam.fps => 0
  | CtrlParam.preset => 0
  | CtrlParam.crf => -1

-- `some n`: the handler variable ends as n; `none`: std::stoi threw and
-- the handler body was aborted by the exception.
def coerceParam (p : CtrlParam) (v : Option String) : Option Int :=
  match v with
  | none => some (paramInit p)
  | some s => stoiModel s

/-! ## Completion callback (src/timelapse/timelapse.cpp lines 70-184)

`requestComplete` observes the stop latch, the request status, and the
per-buffer I/O outcomes (mmap success, file-open success).  `writeLoop`
is the `for (auto bufferPair : buffers)` loop: an mmap or fopen failure
logs and `break`s out of the loop; a successful buffer writes the
frame named by its sequence number.  After the loop the callback
stores `requestCompleted := true` and notifies the capture loop. -/

structure BufferOutcome where
  seq    : Nat
  mmapOk : Bool
  openOk : Bool
  deriving DecidableEq, Repr

def writeLoop : List BufferOutcome → List Nat
  | [] => []
  | b :: rest =>
    if b.mmapOk = false then []
    else if b.openOk = false then []
    else b.seq :: writeLoop rest

inductive ReqStatus
  | completed
  | cancelled
  deriving DecidableEq, Repr

structure CallbackEffect where
  written   : List Nat
  signalled : Bool
  deriving DecidableEq, Repr

def requestComplete (stop : Bool) (status : ReqStatus)
    (bufs : List BufferOutcome) : CallbackEffect :=
  if stop then { written := [], signalled := true }
  else match status with
  | ReqStatus.cancelled => { written := [], signalled := false }
  | ReqStatus.completed => { written := writeLoop bufs, signalled := true }

/-! ## Capture loop (src/timelapse/timelapse.cpp lines 187-312)

Defaults `CAP_INTERVAL = 500`, `TIMELAPSE_LENGTH = 1440`; a
non-positive argument resolves to the default.  The loop runs
`for (int i = 0; i < totalFrames && !shouldRecordStop; i++)`, waits
(for i > 0) on the completion CV re-checking the latch, and queues one
request per iteration that survives both checks.  `stopTop i` is the
latch value observed at iteration i's loop guard, `stopWait i` the
value observed after the CV wait. -/

def CAP_INTERVAL : Int := 500

def TIMELAPSE_LENGTH : Int := 1440

def resolveCapInterval (capInterval : Int) : Int :=
  if capInterval > 0 then capInterval else CAP_INTERVAL

def resolveLength (timelapseLength : Int) : Int :=
  if timelapseLength > 0 then timelapseLength else TIMELAPSE_LENGTH

def totalFrames (timelapseLength capInterval : Int) : Int :=
  timelapseLength * 60 * 1000 / capInterval

def queuedFrom (stopTop stopWait : Nat → Bool) : Nat → Nat → Nat
  | _, 0 => 0
  | i, fuel + 1 =>
    if stopTop i then 0
    else if i ≠ 0 ∧ stopWait i = true then 0
    else 1 + queuedFrom stopTop stopWait (i + 1) fuel

def queuedRequests (total : Nat) (stopTop stopWait : Nat → Bool) : Nat :=
  queuedFrom stopTop stopWait 0 total

-- stills are written only by completion callbacks of queued requests
def sessionStillCount (queued : Nat) (outcome : Nat → CallbackEffect) : Nat :=
  ((List.range queued).map (fun i => (outcome i).written.length)).sum

-- return paths of recordTimelapseHandler: EXIT_FAILURE without a camera,
-- -ENOMEM on allocation / request-creation failure, addBuffer's code on
-- its failure, and 0 after the loop and teardown otherwise.
inductive SetupOutcome
  | noCamera
  | allocFail
  | createReqFail
  | addBufferFail (ret : Int)
  | ok
  deriving DecidableEq, Repr

def recordRunResult : SetupOutcome → Int
  | SetupOutcome.noCamera => 1
  | SetupOutcome.allocFail => -12
  | SetupOutcome.createReqFail => -12
  | SetupOutcome.addBufferFail ret => ret
  | SetupOutcome.ok => 0

/-! ## Frame sink scanline (src/timelapse/timelapse.cpp lines 141-169)

For row y the loop fills `row_buffer[x*3 + 0/1/2]` with
`yPlane[y*W + x]`, `uPlane[(y/2)*(W/2) + x/2]`, `vPlane[(y/2)*(W/2) + x/2]`
for x = 0..W-1; `scanline` is that row as a list.  `sinkJpegParams`
records the libjpeg parameters the sink sets: quality 90 with
`force_baseline = TRUE`, `optimize_coding = TRUE`, 3 components in
`JCS_YCbCr`. -/

def scanline (yP uP vP : Nat → Nat) (W y : Nat) : List Nat :=
  (List.range W).flatMap fun x =>
    [yP (y * W + x), uP (y / 2 * (W / 2) + x / 2), vP (y / 2 * (W / 2) + x / 2)]

structure JpegParams where
  quality         : Nat
  forceBaseline   : Bool
  optimizeCoding  : Bool
  inputComponents : Nat
  deriving DecidableEq, Repr

def sinkJpegParams : JpegParams :=
  { quality := 90, forceBaseline := true, optimizeCoding := true, inputComponents := 3 }

/-! ## Assembler supervision (src/timelapse/timelapse.cpp lines 382-436)

One iteration of the `while (true)` loop: a `waitpid(WNOHANG)`
observation, then — only if the child was not reaped — the
`shouldCreateStop` check with its SIGTERM → 2 s grace → non-blocking
wait → (if still running) SIGKILL → blocking wait escalation, which
stores `shouldCreateStop := false` and returns -1. -/

inductive SupervisorAction
  | sigterm
  | graceSleep
  | waitNonBlocking
  | sigkill
  | waitBlocking
  deriving DecidableEq, Repr

inductive ChildObs
  | waitFailed
  | exited (code : Nat)
  | signaled (sig : Nat)
  | stillRunning
  deriving DecidableEq, Repr

inductive StepOutcome
  | finished (ret : Int) (actions : List SupervisorAction) (cancelCleared : Bool)
  | keepPolling
  deriving DecidableEq, Repr

def superviseStep (obs : ChildObs) (cancelRequested stillRunningAfterGrace : Bool) :
    StepOutcome :=
  match obs with
  | ChildObs.waitFailed => StepOutcome.finished (-1) [] false
  | ChildObs.exited code =>
    if code = 0 then StepOutcome.finished 0 [] false
    else StepOutcome.finished (Int.ofNat code) [] false
  | ChildObs.signaled _ => StepOutcome.finished (-1) [] false
  | ChildObs.stillRunning =>
    if cancelRequested then
      StepOutcome.finished (-1)
        ([SupervisorAction.sigterm, SupervisorAction.graceSleep,
          SupervisorAction.waitNonBlocking] ++
          (if stillRunningAfterGrace then
            [SupervisorAction.sigkill, SupervisorAction.waitBlocking] else []))
        true
    else StepOutcome.keepPolling

/-! ## `/clear-frames` handler (src/server.cpp lines 167-203)

The frame directory is a list of entries (`is_regular_file`,
`extension`).  With `all=true` the handler removes every regular
file; with `all` present but ≠ "true" it rejects; with no `all`
parameter it removes only regular files with extension ".jpg". -/

structure DirEntry where
  name    : String
  regular : Bool
  ext     : String
  deriving DecidableEq, Repr

def removeAllRegular (d : List DirEntry) : List DirEntry :=
  d.filter fun f => !f.regular

def removeJpgOnly (d : List DirEntry) : List DirEntry :=
  d.filter fun f => !(f.regular && f.ext == ".jpg")

structure ClearEffect where
  dir  : List DirEntry
  body : String
  deriving DecidableEq, Repr

def clearFramesRoute (camRunning : Bool) (allParam : Option String)
    (d : List DirEntry) : ClearEffect :=
  if camRunning then
    { dir := d, body := "Error: cannot clear frames while camera is running.\n" }
  else
    match allParam with
    | some v =>
      if v ≠ "true" then
        { dir := d, body := "Error: invalid param value for the all flag.\n" }
      else
        { dir := removeAllRegular d, body := "All files have been successfully cleared\n" }
    | none =>
      { dir := removeJpgOnly d, body := "Frames have been successfully cleared\n" }

/-! ## Assembler knob resolution (src/timelapse/timelapse.cpp lines 315-341)

`createTimelapseHandler` replaces out-of-range knobs by defaults and
then calls `getPreset(static_cast<Preset>(preset))`, whose switch
returns a name for 1..3 and throws `std::invalid_argument` otherwise
(`none` here). -/

def resolveFps (fps : Int) : Int :=
  if fps > 0 then fps else 60

def resolvePresetIdx (preset : Int) : Int :=
  if preset > 0 ∧ preset ≤ 3 then preset else 2

def resolveCrf (crf : Int) : Int :=
  if crf > -1 ∧ crf ≤ 51 then crf else 23

def getPreset (preset : Int) : Option String :=
  if preset = 1 then some "medium"
  else if preset = 2 then some "faster"
  else if preset = 3 then some "veryfast"
  else none

-- a state in which only the assembler background task is running
def preShutdownState : ServerState :=
  { shouldStop := false, shouldCreateStop := false, accepting := true,
    camRunning := false, creatingRunning := true }

-- a frame directory holding one regular non-jpg file
def seedDir : List DirEntry :=
  [{ name := "notes.txt", regular := true, ext := ".txt" }]

/-! ## Theorems -/

/-- Claim C1: the claim says a `/create-timelapse` call with neither job
running and an empty frame directory is rejected with the "no frames"
error, the assembling latch stays false, and no assembler task is
spawned.  The handler sets the error body but has no early return, so
at exactly that input it still stores the latch, spawns the assembler
thread, and overwrites the error with the success body — the code
contradicts its own rejection message. -/
theorem c1_no_frames_still_spawns :
    (createTimelapseRoute false false true false false).spawned = true
    ∧ (createTimelapseRoute false false true false false).latchStored = true
    ∧ noFramesBody ∈ (createTimelapseRoute false false true false false).bodies
    ∧ (createTimelapseRoute false false true false false).bodies.getLast? =
        some "Timelapse has been created\n" := by
  decide

/-- Claim C2: the claim says a call with a missing video directory is
rejected with the "no video dir" error and no spawn, and a call with an
existing video directory passes the check.  The source condition
`exists(TIMELAPSE_PATH) && is_directory(TIMELAPSE_PATH)` is inverted:
the error body is set exactly when the directory does exist, never when
it is missing, and the assembler is spawned in both cases. -/
theorem c2_video_dir_check_inverted :
    noVideoDirBody ∈ (createTimelapseRoute false false false true true).bodies
    ∧ (createTimelapseRoute false false false true true).spawned = true
    ∧ noVideoDirBody ∉ (createTimelapseRoute false false false false false).bodies
    ∧ (createTimelapseRoute false false false false false).spawned = true := by
  decide

/-- Claim C3 counterexample: starting from a state whose only background
task is the assembler, the shutdown sequence (`shutdownServer` plus
main's epilogue) leaves the assembly cancel latch unset and the
assembler task running, so shutdown neither sets `cancelRequested` nor
joins that task. -/
theorem c3_shutdown_counterexample :
    (shutdownSequence preShutdownState).shouldCreateStop = false
    ∧ (shutdownSequence preShutdownState).creatingRunning = true := by
  decide

/-- Claim C4 counterexample: a missing crf parameter is treated as the
handler's initial value -1, not 0, and the non-integer value "abc"
makes the handler's `std::stoi` call raise `std::invalid_argument`
(modelled `none`) instead of coercing it to 0, aborting the request
handling — so neither part of the claim holds. -/
theorem c4_param_counterexample :
    coerceParam CtrlParam.crf none = some (-1)
    ∧ coerceParam CtrlParam.crf none ≠ some 0
    ∧ coerceParam CtrlParam.fps (some "abc") = none
    ∧ coerceParam CtrlParam.fps (some "abc") ≠ some 0 := by
  refine ⟨rfl, by decide, by decide, by decide⟩

/-- Claim C4 amended: a missing query parameter is treated as the
handler's initial value — 0 (the default) for length, cap-interval,
fps and preset, but -1 for crf, which createTimelapseHandler then
resolves to the default 23; a parameter value with no digit after the
optional leading C whitespace and sign makes `std::stoi` throw,
aborting the handling of the request, rather than being treated
as 0. -/
theorem c4_param_amended :
    coerceParam CtrlParam.length none = some 0
    ∧ coerceParam CtrlParam.capInterval none = some 0
    ∧ coerceParam CtrlParam.fps none = some 0
    ∧ coerceParam CtrlParam.preset none = some 0
    ∧ coerceParam CtrlParam.crf none = some (-1)
    ∧ resolveCrf (-1) = 23
    ∧ ∀ (p : CtrlParam) (s : String),
        intPrefixDigits s = [] → coerceParam p (some s) = none := by
  refine ⟨rfl, rfl, rfl, rfl, rfl, by decide, ?_⟩
  intro p s h
  rw [intPrefixDigits] at h
  simp only [coerceParam, stoiModel, h]
  rfl

/-- Claim C4 amended, witness: the missing-parameter cases are closed,
and the abort case is discharged at fps with the value "abc". -/
theorem c4_param_amended_witness :
    coerceParam CtrlParam.crf none = some (-1)
    ∧ coerceParam CtrlParam.fps (some "abc") = none :=
  ⟨c4_param_amended.2.2.2.2.1,
    c4_param_amended.2.2.2.2.2.2 CtrlParam.fps "abc" (by decide)⟩

-- buffers that mmap and open successfully are all written in order
theorem writeLoop_append_ok (pre : List BufferOutcome)
    (hpre : ∀ p ∈ pre, p.mmapOk = true ∧ p.openOk = true)
    (l : List BufferOutcome) :
    writeLoop (pre ++ l) = pre.map BufferOutcome.seq ++ writeLoop l := by
  induction pre with
  | nil => rfl
  | cons p pre ih =>
    have hp := hpre p (List.mem_cons_self p pre)
    have hrest : ∀ q ∈ pre, q.mmapOk = true ∧ q.openOk = true :=
      fun q hq => hpre q (List.mem_cons_of_mem p hq)
    simp [writeLoop, hp.1, hp.2, ih hrest]

-- a buffer whose mmap or open fails breaks out of the loop at once
theorem writeLoop_fail_head (b : BufferOutcome) (rest : List BufferOutcome)
    (hfail : b.mmapOk = false ∨ b.openOk = false) :
    writeLoop (b :: rest) = [] := by
  rcases hfail with h | h
  · simp [writeLoop, h]
  · cases hm : b.mmapOk
    · simp [writeLoop, hm]
    · simp [writeLoop, hm, h]

/-- Claim C5: when the stop latch is clear and the request completed,
an mmap or file-open failure at some buffer drops that buffer's frame
(only the successfully processed buffers before it are written), and
the callback still signals completion to the capture loop, so the
session continues with subsequent requests. -/
theorem c5_per_frame_failure (pre rest : List BufferOutcome) (b : BufferOutcome)
    (hpre : ∀ p ∈ pre, p.mmapOk = true ∧ p.openOk = true)
    (hfail : b.mmapOk = false ∨ b.openOk = false) :
    (requestComplete false ReqStatus.completed (pre ++ b :: rest)).written =
      pre.map BufferOutcome.seq
    ∧ (requestComplete false ReqStatus.completed (pre ++ b :: rest)).signalled = true := by
  constructor
  · simp [requestComplete, writeLoop_append_ok pre hpre (b :: rest),
      writeLoop_fail_head b rest hfail]
  · rfl

/-- Claim C5 witness: a single-buffer completion whose mmap fails writes
nothing but still signals the capture loop. -/
theorem c5_per_frame_failure_witness :
    (requestComplete false ReqStatus.completed [⟨7, false, true⟩]).written = []
    ∧ (requestComplete false ReqStatus.completed [⟨7, false, true⟩]).signalled = true :=
  c5_per_frame_failure [] [] ⟨7, false, true⟩ (by simp) (Or.inl rfl)

-- the loop queues at most one request per remaining iteration
theorem queuedFrom_le (stopTop stopWait : Nat → Bool) :
    ∀ fuel i, queuedFrom stopTop stopWait i fuel ≤ fuel := by
  intro fuel
  induction fuel with
  | zero => intro i; exact Nat.le_refl 0
  | succ n ih =>
    intro i
    simp only [queuedFrom]
    by_cases h1 : stopTop i = true
    · simp [h1]
    · simp only [h1, if_false, Bool.false_eq_true]
      by_cases h2 : i ≠ 0 ∧ stopWait i = true
      · simp [h2]
      · simp only [h2, if_false]
        have := ih (i + 1)
        omega

-- with the latch never observed set, every iteration queues
theorem queuedFrom_no_stop (stopTop stopWait : Nat → Bool)
    (h1 : ∀ i, stopTop i = false) (h2 : ∀ i, stopWait i = false) :
    ∀ fuel i, queuedFrom stopTop stopWait i fuel = fuel := by
  intro fuel
  induction fuel with
  | zero => intro i; rfl
  | succ n ih =>
    intro i
    simp only [queuedFrom, h1 i, h2 i]
    simp [ih (i + 1), Nat.add_comm]

theorem totalFrames_eq (D T : Int) : totalFrames D T = D * 60000 / T := by
  unfold totalFrames
  norm_num [mul_assoc]

theorem totalFrames_zero_of_large_interval (D T : Int) (hD : 0 ≤ D)
    (h : D * 60000 < T) : totalFrames D T = 0 := by
  rw [totalFrames_eq]
  exact Int.ediv_eq_zero_of_lt (by positivity) h

/-- Claim C6: with resolved duration D minutes and resolved interval T
ms, the loop bound is (D·60000)/T by integer division; the number of
queued requests is at most that bound, equals it exactly when the stop
latch is never observed set, and when T exceeds D·60000 the bound is
zero, no request is queued, no still can be produced by any completion
outcome, and the run (with setup succeeded) returns 0. -/
theorem c6_capture_frame_count (D T : Int) (hD : 0 < D) (hT : 0 < T)
    (stopTop stopWait : Nat → Bool) (outcome : Nat → CallbackEffect) :
    totalFrames D T = D * 60000 / T
    ∧ queuedRequests (totalFrames D T).toNat stopTop stopWait ≤ (totalFrames D T).toNat
    ∧ ((∀ i, stopTop i = false) → (∀ i, stopWait i = false) →
        queuedRequests (totalFrames D T).toNat stopTop stopWait = (totalFrames D T).toNat)
    ∧ (D * 60000 < T →
        totalFrames D T = 0
        ∧ queuedRequests (totalFrames D T).toNat stopTop stopWait = 0
        ∧ sessionStillCount
            (queuedRequests (totalFrames D T).toNat stopTop stopWait) outcome = 0
        ∧ recordRunResult SetupOutcome.ok = 0) := by
  refine ⟨totalFrames_eq D T, queuedFrom_le stopTop stopWait _ 0, ?_, ?_⟩
  · intro h1 h2
    exact queuedFrom_no_stop stopTop stopWait h1 h2 _ 0
  · intro h
    have hz : totalFrames D T = 0 :=
      totalFrames_zero_of_large_interval D T (Int.le_of_lt hD) h
    have hq : queuedRequests (totalFrames D T).toNat stopTop stopWait = 0 := by
      rw [hz]; rfl
    refine ⟨hz, hq, ?_, rfl⟩
    rw [hq]
    rfl

/-- Claim C6 witness: duration 1 minute at 500 ms with the latch never
set queues exactly 60000/500 = 120 requests. -/
theorem c6_capture_frame_count_witness :
    queuedRequests (totalFrames 1 500).toNat (fun _ => false) (fun _ => false) = 120 := by
  have h := (c6_capture_frame_count 1 500 (by decide) (by decide)
      (fun _ => false) (fun _ => false)
      (fun _ => { written := [], signalled := true })).2.2.1
      (fun _ => rfl) (fun _ => rfl)
  rw [h]
  decide

-- a row built from W triplets has length 3·W
theorem flatMap_triple_length (f : Nat → List Nat) (h3 : ∀ x, (f x).length = 3) :
    ∀ n, ((List.range n).flatMap f).length = 3 * n := by
  intro n
  induction n with
  | zero => rfl
  | succ m ih =>
    rw [List.range_succ, List.flatMap_append, List.length_append, ih]
    simp [h3 m]
    omega

-- element 3·i + k of a row of triplets is element k of triplet i
theorem flatMap_triple_getElem (f : Nat → List Nat) (h3 : ∀ x, (f x).length = 3) :
    ∀ n i k, i < n → k < 3 → ((List.range n).flatMap f)[3 * i + k]? = (f i)[k]? := by
  intro n
  induction n with
  | zero => intro i k hi _; omega
  | succ m ih =>
    intro i k hi hk
    rw [List.range_succ, List.flatMap_append, List.getElem?_append,
      flatMap_triple_length f h3 m]
    rcases Nat.lt_or_ge i m with h | h
    · rw [if_pos (by omega)]
      exact ih i k h hk
    · have heq : i = m := by omega
      subst heq
      rw [if_neg (by omega)]
      simp [h3 i, hk]

/-- Claim C7: for a frame of even width W, output pixel (x, y) of row y
is the interleaved triplet (Y[y·W + x], Cb[(y/2)·(W/2) + x/2],
Cr[(y/2)·(W/2) + x/2]) — nearest-neighbour 4:2:0 → 4:4:4 up-sampling —
and the sink's JPEG parameters are quality 90, baseline forced,
optimized entropy coding, 3 components. -/
theorem c7_scanline_upsampling (yP uP vP : Nat → Nat) (W H x y : Nat)
    (hW : W % 2 = 0) (hx : x < W) (hy : y < H) :
    (scanline yP uP vP W y)[3 * x]? = some (yP (y * W + x))
    ∧ (scanline yP uP vP W y)[3 * x + 1]? = some (uP (y / 2 * (W / 2) + x / 2))
    ∧ (scanline yP uP vP W y)[3 * x + 2]? = some (vP (y / 2 * (W / 2) + x / 2))
    ∧ sinkJpegParams.quality = 90
    ∧ sinkJpegParams.forceBaseline = true
    ∧ sinkJpegParams.optimizeCoding = true := by
  have h3 : ∀ z, ([yP (y * W + z), uP (y / 2 * (W / 2) + z / 2),
      vP (y / 2 * (W / 2) + z / 2)]).length = 3 := fun z => rfl
  have h0 := flatMap_triple_getElem _ h3 W x 0 hx (by omega)
  have h1 := flatMap_triple_getElem _ h3 W x 1 hx (by omega)
  have h2 := flatMap_triple_getElem _ h3 W x 2 hx (by omega)
  refine ⟨?_, ?_, ?_, rfl, rfl, rfl⟩
  · simpa [scanline] using h0
  · simpa [scanline] using h1
  · simpa [scanline] using h2

/-- Claim C7 witness: a 2×2 frame with distinguishable planes maps
pixel (1, 1) to (Y[3], Cb[0], Cr[0]). -/
theorem c7_scanline_upsampling_witness :
    (scanline (fun n => n) (fun n => n + 100) (fun n => n + 200) 2 1)[3 * 1]? = some 3
    ∧ (scanline (fun n => n) (fun n => n + 100) (fun n => n + 200) 2 1)[3 * 1 + 1]? =
        some 100
    ∧ (scanline (fun n => n) (fun n => n + 100) (fun n => n + 200) 2 1)[3 * 1 + 2]? =
        some 200 := by
  have h := c7_scanline_upsampling (fun n => n) (fun n => n + 100) (fun n => n + 200)
    2 2 1 1 (by decide) (by decide) (by decide)
  exact ⟨h.1, h.2.1, h.2.2.1⟩

/-- Claim C8: one supervision-loop iteration that observes the child
still running with the cancel latch set sends SIGTERM, sleeps the ~2 s
grace, performs a non-blocking wait, sends SIGKILL followed by a
blocking wait exactly when the child is still running after the grace,
clears the cancel latch, and returns the non-zero code -1. -/
theorem c8_cancel_escalation :
    (∀ b : Bool,
      superviseStep ChildObs.stillRunning true b =
        StepOutcome.finished (-1)
          ([SupervisorAction.sigterm, SupervisorAction.graceSleep,
            SupervisorAction.waitNonBlocking] ++
            (if b then [SupervisorAction.sigkill, SupervisorAction.waitBlocking] else []))
          true)
    ∧ ((-1 : Int) ≠ 0) := by
  constructor
  · intro b
    cases b <;> rfl
  · decide

/-- Claim C9 counterexample: a frame directory holding one regular
non-jpg file, cleared twice with no `all` parameter and no intervening
startCapture, is still non-empty — clearFrames twice does not leave
the frame directory empty. -/
theorem c9_clear_counterexample :
    (clearFramesRoute false none (clearFramesRoute false none seedDir).dir).dir ≠ [] := by
  decide

-- removing matching entries twice is the same as removing them once
theorem filter_idem {α : Type} (p : α → Bool) (l : List α) :
    (l.filter p).filter p = l.filter p := by
  simp [List.filter_filter]

/-- Claim C9 amended: with capture not running, a second clearFrames
with the same parameter changes nothing (the operation is idempotent);
after `all=true` no regular file remains, and after the parameterless
variant no regular .jpg file remains — but entries outside the
variant's scope survive, so the directory need not end up empty. -/
theorem c9_clear_amended (p : Option String) (d : List DirEntry) :
    (clearFramesRoute false p (clearFramesRoute false p d).dir).dir =
      (clearFramesRoute false p d).dir
    ∧ ((removeAllRegular d).all fun f => !f.regular) = true
    ∧ ((removeJpgOnly d).all fun f => !(f.regular && f.ext == ".jpg")) = true := by
  refine ⟨?_, ?_, ?_⟩
  · cases p with
    | none => simp [clearFramesRoute, removeJpgOnly, filter_idem]
    | some v =>
      by_cases hv : v = "true"
      · subst hv
        simp [clearFramesRoute, removeAllRegular, filter_idem]
      · simp [clearFramesRoute, hv]
  · simp [removeAllRegular, List.all_eq_true]
  · simp only [removeJpgOnly, List.all_eq_true]
    intro f hf
    exact (List.mem_filter.mp hf).2

/-- Claim C10: createTimelapseHandler resolves every integer knob
triple without error — fps ≤ 0 becomes 60 and positive fps is kept,
preset outside [1,3] becomes 2 and in-range preset is kept, crf outside
[0,51] becomes 23 and in-range crf is kept — and getPreset is defined
(does not throw) on every resolved preset. -/
theorem c10_knob_resolution (fps preset crf : Int) :
    (fps ≤ 0 → resolveFps fps = 60)
    ∧ (0 < fps → resolveFps fps = fps)
    ∧ ((preset < 1 ∨ 3 < preset) → resolvePresetIdx preset = 2)
    ∧ ((1 ≤ preset ∧ preset ≤ 3) → resolvePresetIdx preset = preset)
    ∧ ((crf < 0 ∨ 51 < crf) → resolveCrf crf = 23)
    ∧ ((0 ≤ crf ∧ crf ≤ 51) → resolveCrf crf = crf)
    ∧ (getPreset (resolvePresetIdx preset)).isSome = true := by
  refine ⟨?_, ?_, ?_, ?_, ?_, ?_, ?_⟩
  · intro h; rw [resolveFps, if_neg (by omega)]
  · intro h; rw [resolveFps, if_pos h]
  · intro h; rw [resolvePresetIdx, if_neg (by omega)]
  · intro h; rw [resolvePresetIdx, if_pos ⟨by omega, h.2⟩]
  · intro h; rw [resolveCrf, if_neg (by omega)]
  · intro h; rw [resolveCrf, if_pos ⟨by omega, h.2⟩]
  · by_cases h : preset > 0 ∧ preset ≤ 3
    · rw [resolvePresetIdx, if_pos h]
      have h1 : preset = 1 ∨ preset = 2 ∨ preset = 3 := by omega
      rcases h1 with h1 | h1 | h1 <;> subst h1 <;> rfl
    · rw [resolvePresetIdx, if_neg h]
      rfl

/-- Claim C10 witness: the out-of-range triple (-5, 7, 99) resolves to
the defaults (60, 2, 23) and getPreset accepts the resolved preset. -/
theorem c10_knob_resolution_witness :
    resolveFps (-5) = 60 ∧ resolvePresetIdx 7 = 2 ∧ resolveCrf 99 = 23
    ∧ (getPreset (resolvePresetIdx 7)).isSome = true := by
  have h := c10_knob_resolution (-5) 7 99
  exact ⟨h.1 (by decide), h.2.2.1 (Or.inr (by decide)),
    h.2.2.2.2.1 (Or.inr (by decide)), h.2.2.2.2.2.2⟩

/-- Claim C3 amended: shutdown sets the capture stop latch, stops
accepting new requests, and joins the capture thread; the assembly
cancel latch and the assembler background task are left exactly as they
were, so an assembler task may remain running after shutdown. -/
theorem c3_shutdown_amended (s : ServerState) :
    (shutdownSequence s).shouldStop = true
    ∧ (shutdownSequence s).accepting = false
    ∧ (shutdownSequence s).camRunning = false
    ∧ (shutdownSequence s).shouldCreateStop = s.shouldCreateStop
    ∧ (shutdownSequence s).creatingRunning = s.creatingRunning := by
  refine ⟨rfl, rfl, rfl, rfl, rfl⟩
